import Mathlib

/-!
Shallow embedding of the multi-tenant database provisioning core of the
NorthStar user-management service (tenant_management app: models.py,
validators.py, tenant_utils.py, views.py), together with theorems that
settle the frozen claims about it.

External effects (the postgres administrative connection, the two HTTP
calls to the collaborating service, the random source) are passed in as
explicit environment values; the tenant directory (database table) and
the Django connection registry are passed as explicit state.
-/

namespace TenantMgmt

/-- Tenant lifecycle status, from the `status` choices of
`TenantDatabaseInfo` in models.py. -/
inductive TenantStatus where
  | PROVISIONING
  | ACTIVE
  | SUSPENDED
  | INACTIVE
  | PROVISIONING_FAILED
deriving DecidableEq, Repr

/-- Key material derived from the service-wide secret.
Models the `base64.urlsafe_b64encode(hashlib.sha256(SECRET_KEY).digest())`
derivation of models.py as a deterministic, collision-free function of the
secret (the hash is idealized as injective). -/
structure DerivedKey where
  secret_material : String
deriving DecidableEq, Repr

def derive_fernet_key (secret : String) : DerivedKey :=
  DerivedKey.mk secret

/-- Modelled from the spec: the `cryptography.fernet.Fernet` primitive is an
external library, specified only by its contract (authenticated symmetric
encryption). A token records the key it was produced under and the
plaintext; decryption checks the key and fails otherwise. -/
structure FernetToken where
  key : DerivedKey
  plaintext : String
deriving DecidableEq, Repr

def fernet_encrypt (key : DerivedKey) (pt : String) : FernetToken :=
  FernetToken.mk key pt

def fernet_decrypt (key : DerivedKey) (tok : FernetToken) : Except String String :=
  if tok.key = key then Except.ok tok.plaintext else Except.error "InvalidToken"

/-- The persisted tenant directory row, from `TenantDatabaseInfo` in
models.py.  `database_password` stores the Fernet ciphertext. -/
structure TenantRecord where
  tenant_slug : String
  company_name : String
  database_name : String
  database_user : String
  database_password : FernetToken
  database_host : String
  database_port : String
  subscription_plan : String
  status : TenantStatus
  is_active : Bool
deriving DecidableEq, Repr

/-- `TenantDatabaseInfo.encrypt_password` of models.py: derive the Fernet
key from the service secret and encrypt the raw password. -/
def encrypt_password (secret raw_password : String) : FernetToken :=
  fernet_encrypt (derive_fernet_key secret) raw_password

/-- `TenantDatabaseInfo.decrypt_password` of models.py: derive the Fernet
key from the service secret and decrypt the stored ciphertext; raises
(returns `Except.error`) on key mismatch. -/
def decrypt_password (secret : String) (t : TenantRecord) : Except String String :=
  fernet_decrypt (derive_fernet_key secret) t.database_password

/-- Whether the stored ciphertext of a record decrypts under the service
secret (it was produced under the same secret). -/
def can_decrypt (secret : String) (t : TenantRecord) : Bool :=
  t.database_password.key == derive_fernet_key secret

/- ### validators.py -/

def RESERVED_TENANT_SLUGS : List String :=
  ["postgres", "template0", "template1", "admin", "default", "public",
   "master", "root", "system"]

/-- Python `str.strip()`: drop whitespace from both ends. -/
def pyStrip (s : String) : String :=
  String.mk (((s.data.dropWhile Char.isWhitespace).reverse.dropWhile
    Char.isWhitespace).reverse)

/-- Python `str.lower()` (ASCII range, which is all the validator's later
checks can accept anyway). -/
def pyLower (s : String) : String :=
  String.mk (s.data.map Char.toLower)

/-- Character class `[a-z0-9-]` of the slug regex. -/
def isSlugChar (c : Char) : Bool :=
  (97 ≤ c.toNat && c.toNat ≤ 122) || (48 ≤ c.toNat && c.toNat ≤ 57) || c == '-'

/-- `re.fullmatch` of the slug regex `[a-z0-9-]` with length 3 to 50. -/
def slug_regex_match (s : String) : Bool :=
  decide (3 ≤ s.length) && decide (s.length ≤ 50) && s.data.all isSlugChar

/-- `validate_and_normalize_slug` of validators.py.  The argument is
`Option String` because the view passes `request.data.get('tenant_slug')`,
which is `None` when the field is missing.  `Except.error` models a raised
`ValidationError`. -/
def validate_and_normalize_slug (raw_slug : Option String) : Except String String :=
  match raw_slug with
  | none => Except.error "tenant_slug is required"
  | some raw =>
    let slug := pyLower (pyStrip raw)
    if slug.data.contains '_' || slug.data.contains ' ' then
      Except.error "tenant_slug may not contain underscores or spaces (use hyphens)"
    else if RESERVED_TENANT_SLUGS.contains slug then
      Except.error "tenant_slug is reserved; choose another"
    else if !slug_regex_match slug then
      Except.error "tenant_slug must be 3-50 chars: lowercase letters, numbers, hyphens"
    else
      Except.ok slug

/- ### tenant_utils.py: credential generation -/

/-- `string.ascii_letters + string.digits + "!@#$%^&*"` of
`generate_database_credentials`. -/
def password_alphabet : List Char :=
  ("abcdefghijklmnopqrstuvwxyzABCDEFGHIJKLMNOPQRSTUVWXYZ0123456789!@#$%^&*").data

/-- `generate_database_credentials` of tenant_utils.py.  `rand` models the
stream of draws of `secrets.choice` from the alphabet. -/
def generate_database_credentials (tenant_slug : String)
    (rand : Nat → Fin password_alphabet.length) : String × String × String :=
  (tenant_slug ++ "_compliance_db",
   tenant_slug ++ "_user",
   String.mk ((List.range 16).map (fun i => password_alphabet.get (rand i))))

/- ### tenant_utils.py: remote orchestration client (Service 1 calls) -/

/-- A JSON scalar, enough to model the bodies the code inspects. -/
inductive JVal where
  | jbool (b : Bool)
  | jnat (n : Nat)
  | jstr (s : String)
deriving DecidableEq, Repr

/-- A parsed JSON object body, as returned by `response.json()`; the empty
list models the Python empty dict. -/
abbrev TemplateResult := List (String × JVal)

/-- Outcome of the two HTTP calls to Service 1.  `Except.error` models the
request itself raising (network failure, timeout); `Except.ok` carries the
HTTP status code, and for the template call also the body, where `none`
models `response.json()` raising on an unparsable body. -/
structure RemoteEnv where
  migrate_response : Except String Nat
  templates_response : Except String (Nat × Option TemplateResult)

/-- `run_tenant_migrations_via_service1` of tenant_utils.py: true iff the
remote responded HTTP 200; false on any other status or any exception. -/
def run_tenant_migrations_via_service1 (env : RemoteEnv)
    (_tenant_slug _connection_name : String) : Bool :=
  match env.migrate_response with
  | Except.ok status_code => status_code == 200
  | Except.error _ => false

/-- `copy_framework_templates_via_service1` of tenant_utils.py: the parsed
JSON body on HTTP 200; the empty dict on any non-200 status or any
exception (including `response.json()` raising inside the try). -/
def copy_framework_templates_via_service1 (env : RemoteEnv)
    (_tenant_slug : String) (_framework_ids : Option (List Nat)) : TemplateResult :=
  match env.templates_response with
  | Except.error _ => []
  | Except.ok (status_code, body) =>
    if status_code == 200 then
      match body with
      | some result => result
      | none => []
    else []

/- ### connection registry (Django connections.databases) -/

/-- A Django database connection configuration (the fields the code sets). -/
structure DbConfig where
  name : String
  user : String
  password : String
  host : String
  port : String
deriving DecidableEq, Repr

/-- `connections.databases`, as an association list keyed by connection
name. -/
abbrev Registry := List (String × DbConfig)

/-- Dict assignment `connections.databases[k] = cfg`: insert or overwrite. -/
def registry_insert (reg : Registry) (k : String) (cfg : DbConfig) : Registry :=
  (k, cfg) :: reg.filter (fun p => p.fst != k)

/-- Dict membership `k in connections.databases`. -/
def registry_has (reg : Registry) (k : String) : Bool :=
  reg.any (fun p => p.fst == k)

/-- The relevant service settings: the Django `SECRET_KEY` and the default
database configuration. -/
structure Settings where
  secret_key : String
  default_db : DbConfig
deriving DecidableEq, Repr

/-- `add_tenant_database_to_django` of tenant_utils.py: copy the default
configuration, override it with the tenant's coordinates and decrypted
password, and register it under `{slug}_compliance_db`.  Propagates a
decryption failure (the only fallible part). -/
def add_tenant_database_to_django (st : Settings) (reg : Registry)
    (tenant_info : TenantRecord) : Except String (Registry × String) :=
  match decrypt_password st.secret_key tenant_info with
  | Except.error e => Except.error e
  | Except.ok pw =>
    let db_config : DbConfig :=
      { st.default_db with
        name := tenant_info.database_name
        user := tenant_info.database_user
        password := pw
        host := tenant_info.database_host
        port := tenant_info.database_port }
    let connection_name := tenant_info.tenant_slug ++ "_compliance_db"
    Except.ok (registry_insert reg connection_name db_config, connection_name)

/- ### tenant_utils.py: provisioning orchestrator -/

/-- One entry of the step ledger (`steps[name]` in the code); `reused` and
`skipped` are the extra flags the reuse path sets. -/
structure StepEntry where
  ok : Bool
  reused : Bool := false
  skipped : Bool := false
deriving DecidableEq, Repr

/-- The step ledger `steps` of `register_tenant_database` (and of the reuse
path in views.py); `none` models an entry still holding `None`. -/
structure Steps where
  generate_credentials : Option StepEntry := none
  directory_row : Option StepEntry := none
  postgres_provision : Option StepEntry := none
  django_alias : Option StepEntry := none
  migrations : Option StepEntry := none
  templates : Option StepEntry := none
  final_status : Option TenantStatus := none
  error : Option String := none
deriving DecidableEq, Repr

/-- The `all_ok` conjunction of line 201 of tenant_utils.py: the `ok` flags
of the postgres, alias, migrations and templates ledger entries. -/
def ledger_all_ok (s : Steps) : Bool :=
  ((s.postgres_provision.map (fun e => e.ok)).getD false) &&
  ((s.django_alias.map (fun e => e.ok)).getD false) &&
  ((s.migrations.map (fun e => e.ok)).getD false) &&
  ((s.templates.map (fun e => e.ok)).getD false)

/-- `bool(template_result) and template_result.get('success') is True` of
line 197 of tenant_utils.py. -/
def template_call_ok (template_result : TemplateResult) : Bool :=
  !template_result.isEmpty &&
    (template_result.lookup "success" == some (JVal.jbool true))

/-- The externally visible side-effecting calls the provisioning code can
make, in the order they are attempted. -/
inductive Effect where
  | gen_credentials
  | save_directory_row
  | pg_provision
  | wire_alias
  | call_migrations
  | call_templates
deriving DecidableEq, Repr

/-- The environment of one provisioning run: the random stream for the
password, the outcome of `create_postgresql_database` (an `Except.error`
models a raised `ProvisioningError`), and the remote-call outcomes. -/
structure ProvisionEnv where
  rand : Nat → Fin password_alphabet.length
  pg_provision : Except String Unit
  remote : RemoteEnv

/-- The dict `register_tenant_database` returns on success. -/
structure RegisterResult where
  tenant_info : TenantRecord
  connection_name : String
  migration_success : Bool
  template_success : TemplateResult
  steps : Steps
deriving DecidableEq, Repr

/-- The complete outcome of a `register_tenant_database` call: the tenant
directory and connection registry after the call, the local `steps` dict,
the trace of external calls attempted, and the returned value
(`Except.error` models the function raising). -/
structure ProvisionOutcome where
  db : List TenantRecord
  registry : Registry
  steps : Steps
  effects : List Effect
  result : Except String RegisterResult

/-- `TenantDatabaseInfo.objects` lookup by slug alone (`filter(...).first()`
in views.py line 90 has no `is_active` filter). -/
def find_tenant (db : List TenantRecord) (slug : String) : Option TenantRecord :=
  db.find? (fun t => t.tenant_slug == slug)

/-- `tenant_info.save()` on an existing row: replace the row with the same
slug. -/
def save_update (db : List TenantRecord) (t : TenantRecord) : List TenantRecord :=
  db.map (fun r => if r.tenant_slug == t.tenant_slug then t else r)

/-- `register_tenant_database` of tenant_utils.py, lines 148-224.

Steps 1-2 (credential generation, directory-row creation) run before the
try block: a failing insert (unique-slug violation) raises with nothing
recorded in the ledger and no row written.  Steps 3-7 run inside the try
block: an exception there marks the row `PROVISIONING_FAILED`, records the
error in the ledger, and re-raises. -/
def register_tenant_database (st : Settings) (env : ProvisionEnv)
    (db : List TenantRecord) (reg : Registry)
    (tenant_slug company_name subscription_plan : String)
    (framework_ids : Option (List Nat)) : ProvisionOutcome :=
  let creds := generate_database_credentials tenant_slug env.rand
  let db_name := creds.fst
  let db_user := creds.snd.fst
  let db_password := creds.snd.snd
  let steps0 : Steps := { generate_credentials := some { ok := true } }
  let tenant_info : TenantRecord :=
    { tenant_slug := tenant_slug
      company_name := company_name
      database_name := db_name
      database_user := db_user
      database_password := encrypt_password st.secret_key db_password
      database_host := st.default_db.host
      database_port := st.default_db.port
      subscription_plan := subscription_plan
      status := TenantStatus.PROVISIONING
      is_active := true }
  if db.any (fun r => r.tenant_slug == tenant_slug) then
    { db := db, registry := reg, steps := steps0,
      effects := [Effect.gen_credentials, Effect.save_directory_row],
      result := Except.error "IntegrityError: duplicate tenant_slug" }
  else
    let db1 := db ++ [tenant_info]
    let steps1 : Steps := { steps0 with directory_row := some { ok := true } }
    match env.pg_provision with
    | Except.error e =>
      let failed : TenantRecord := { tenant_info with status := TenantStatus.PROVISIONING_FAILED }
      { db := save_update db1 failed, registry := reg,
        steps := { steps1 with
          final_status := some TenantStatus.PROVISIONING_FAILED
          error := some e },
        effects := [Effect.gen_credentials, Effect.save_directory_row, Effect.pg_provision],
        result := Except.error e }
    | Except.ok _ =>
      let steps2 : Steps := { steps1 with postgres_provision := some { ok := true } }
      match add_tenant_database_to_django st reg tenant_info with
      | Except.error e =>
        let failed : TenantRecord := { tenant_info with status := TenantStatus.PROVISIONING_FAILED }
        { db := save_update db1 failed, registry := reg,
          steps := { steps2 with
            final_status := some TenantStatus.PROVISIONING_FAILED
            error := some e },
          effects := [Effect.gen_credentials, Effect.save_directory_row,
                      Effect.pg_provision, Effect.wire_alias],
          result := Except.error e }
      | Except.ok regcn =>
        let reg1 := regcn.fst
        let connection_name := regcn.snd
        let steps3 : Steps := { steps2 with django_alias := some { ok := true } }
        let migration_success :=
          run_tenant_migrations_via_service1 env.remote tenant_slug connection_name
        let steps4 : Steps := { steps3 with migrations := some { ok := migration_success } }
        let template_result :=
          copy_framework_templates_via_service1 env.remote tenant_slug framework_ids
        let template_ok := template_call_ok template_result
        let steps5 : Steps := { steps4 with templates := some { ok := template_ok } }
        let all_ok := ledger_all_ok steps5
        let final := if all_ok then TenantStatus.ACTIVE else TenantStatus.PROVISIONING_FAILED
        let tenant_done : TenantRecord := { tenant_info with status := final }
        let steps6 : Steps := { steps5 with final_status := some final }
        { db := save_update db1 tenant_done, registry := reg1,
          steps := steps6,
          effects := [Effect.gen_credentials, Effect.save_directory_row,
                      Effect.pg_provision, Effect.wire_alias,
                      Effect.call_migrations, Effect.call_templates],
          result := Except.ok
            { tenant_info := tenant_done
              connection_name := connection_name
              migration_success := migration_success
              template_success := template_result
              steps := steps6 } }

/- ### views.py: the create_tenant action -/

/-- The provisioning section of the create-tenant HTTP response body. -/
structure ProvisioningView where
  connection_name : String
  migration_success : Bool
  template_success : TemplateResult
  steps : Steps
deriving DecidableEq, Repr

/-- The create-tenant HTTP response: status code, flags, and the optional
tenant and provisioning (step-ledger) sections of the body. -/
structure ApiResponse where
  http_status : Nat
  success : Bool
  message : Option String := none
  error : Option String := none
  tenant : Option TenantRecord := none
  provisioning : Option ProvisioningView := none
deriving DecidableEq, Repr

/-- The complete outcome of one `create_tenant` request: directory and
registry afterwards, trace of external calls, and the response sent. -/
structure CreateTenantOutcome where
  db : List TenantRecord
  registry : Registry
  effects : List Effect
  response : ApiResponse

/-- `TenantManagementViewSet.create_tenant` of views.py, lines 71-161.

Order of the code: slug validation (400 on `ValidationError`, before any
side effect); presence check of slug and company name (400); existence
check by slug alone, routing to the reuse path (re-wire alias, re-attempt
migrations and templates, 200 with `reused`/`skipped` ledger flags, no new
row); otherwise `register_tenant_database` (201 with the full ledger on
return, 400 with only the error string when it raises).  An exception in
the reuse path's alias wiring is unhandled in views.py; it is modelled as
the framework's bare 500 response. -/
def create_tenant (st : Settings) (env : ProvisionEnv)
    (db : List TenantRecord) (reg : Registry)
    (raw_slug : Option String) (company_name : Option String)
    (subscription_plan : String) (framework_ids : Option (List Nat)) :
    CreateTenantOutcome :=
  match validate_and_normalize_slug raw_slug with
  | Except.error e =>
    { db := db, registry := reg, effects := [],
      response := { http_status := 400, success := false, error := some e } }
  | Except.ok tenant_slug =>
    match company_name with
    | none =>
      { db := db, registry := reg, effects := [],
        response := { http_status := 400, success := false,
                      error := some "tenant_slug and company_name are required" } }
    | some company =>
      if company = "" then
        { db := db, registry := reg, effects := [],
          response := { http_status := 400, success := false,
                        error := some "tenant_slug and company_name are required" } }
      else
        match find_tenant db tenant_slug with
        | some existing =>
          match add_tenant_database_to_django st reg existing with
          | Except.error e =>
            { db := db, registry := reg, effects := [Effect.wire_alias],
              response := { http_status := 500, success := false, error := some e } }
          | Except.ok regcn =>
            let reg1 := regcn.fst
            let connection_name := regcn.snd
            let migration_success :=
              run_tenant_migrations_via_service1 env.remote tenant_slug connection_name
            let template_success :=
              copy_framework_templates_via_service1 env.remote tenant_slug framework_ids
            let steps : Steps :=
              { generate_credentials := some { ok := true, reused := true }
                directory_row := some { ok := true, reused := true }
                postgres_provision := some { ok := true, skipped := true }
                django_alias := some { ok := true }
                migrations := some { ok := migration_success }
                templates := some { ok := !template_success.isEmpty }
                final_status := some existing.status }
            { db := db, registry := reg1,
              effects := [Effect.wire_alias, Effect.call_migrations, Effect.call_templates],
              response := { http_status := 200, success := true,
                            message := some "already existed; wiring refreshed",
                            tenant := some existing,
                            provisioning := some
                              { connection_name := connection_name
                                migration_success := migration_success
                                template_success := template_success
                                steps := steps } } }
        | none =>
          let out := register_tenant_database st env db reg tenant_slug company
            subscription_plan framework_ids
          match out.result with
          | Except.ok result =>
            { db := out.db, registry := out.registry, effects := out.effects,
              response := { http_status := 201, success := true,
                            message := some "created successfully",
                            tenant := some result.tenant_info,
                            provisioning := some
                              { connection_name := result.connection_name
                                migration_success := result.migration_success
                                template_success := result.template_success
                                steps := result.steps } } }
          | Except.error e =>
            { db := out.db, registry := out.registry, effects := out.effects,
              response := { http_status := 400, success := false,
                            error := some ("Failed to create tenant: " ++ e) } }

/- ### tenant_utils.py: startup bulk load -/

/-- Result of `load_all_tenant_databases`: the registry afterwards, the
slugs whose registration succeeded, and the slugs whose failure was logged
and skipped. -/
structure LoadOutcome where
  registry : Registry
  loaded : List String
  skipped_failures : List String
deriving DecidableEq, Repr

/-- One iteration of the loop in `load_all_tenant_databases`: try to
register; on exception, log and continue. -/
def load_step (st : Settings) (acc : LoadOutcome) (t : TenantRecord) : LoadOutcome :=
  match add_tenant_database_to_django st acc.registry t with
  | Except.ok regcn => { acc with registry := regcn.fst, loaded := acc.loaded ++ [t.tenant_slug] }
  | Except.error _ => { acc with skipped_failures := acc.skipped_failures ++ [t.tenant_slug] }

/-- `load_all_tenant_databases` of tenant_utils.py, lines 134-146: iterate
all `is_active` records, best-effort. -/
def load_all_tenant_databases (st : Settings) (db : List TenantRecord)
    (reg : Registry) : LoadOutcome :=
  (db.filter (fun t => t.is_active)).foldl (load_step st)
    { registry := reg, loaded := [], skipped_failures := [] }

/- ### tenant_utils.py: credential lookup and on-demand registration -/

/-- The decrypted credential bundle returned by
`get_tenant_database_credentials`. -/
structure CredsBundle where
  database_name : String
  database_user : String
  database_password : String
  database_host : String
  database_port : String
  connection_name : String
deriving DecidableEq, Repr

/-- `get_tenant_database_credentials` of tenant_utils.py, lines 292-309:
`objects.get(tenant_slug=..., is_active=True)`; `DoesNotExist` is caught
and returns `None`; a decryption failure is not caught and propagates. -/
def get_tenant_database_credentials (st : Settings) (db : List TenantRecord)
    (tenant_slug : String) : Except String (Option CredsBundle) :=
  match db.find? (fun t => t.tenant_slug == tenant_slug && t.is_active) with
  | none => Except.ok none
  | some t =>
    match decrypt_password st.secret_key t with
    | Except.error e => Except.error e
    | Except.ok pw =>
      Except.ok (some
        { database_name := t.database_name
          database_user := t.database_user
          database_password := pw
          database_host := t.database_host
          database_port := t.database_port
          connection_name := tenant_slug ++ "_compliance_db" })

/-- `register_tenant_database_alias_on_demand` of tenant_utils.py, lines
312-338: return the connection name at once if it is already registered
(without consulting the directory); otherwise look up the credentials and
raise when the slug has no active record. -/
def register_tenant_database_alias_on_demand (st : Settings)
    (db : List TenantRecord) (reg : Registry) (tenant_slug : String) :
    Except String (Registry × String) :=
  let connection_name := tenant_slug ++ "_compliance_db"
  if registry_has reg connection_name then
    Except.ok (reg, connection_name)
  else
    match get_tenant_database_credentials st db tenant_slug with
    | Except.error e => Except.error e
    | Except.ok none => Except.error ("Tenant " ++ tenant_slug ++ " not found")
    | Except.ok (some creds) =>
      let db_config : DbConfig :=
        { st.default_db with
          name := creds.database_name
          user := creds.database_user
          password := creds.database_password
          host := creds.database_host
          port := creds.database_port }
      Except.ok (registry_insert reg connection_name db_config, connection_name)

/- ### concrete fixtures (used by witnesses and counterexamples) -/

def sampleCfg : DbConfig :=
  { name := "postgres", user := "pg", password := "pgpw",
    host := "localhost", port := "5432" }

def sampleSettings : Settings :=
  { secret_key := "service-secret", default_db := sampleCfg }

def zeroRand : Nat → Fin password_alphabet.length := fun _ => ⟨0, by decide⟩

def okRemote : RemoteEnv :=
  { migrate_response := Except.ok 200,
    templates_response := Except.ok (200, some [("success", JVal.jbool true)]) }

def okEnv : ProvisionEnv :=
  { rand := zeroRand, pg_provision := Except.ok (), remote := okRemote }

def pgFailEnv : ProvisionEnv :=
  { okEnv with pg_provision := Except.error "connection refused" }

def acmeRecord : TenantRecord :=
  { tenant_slug := "acme", company_name := "Acme Inc",
    database_name := "acme_compliance_db", database_user := "acme_user",
    database_password := encrypt_password "service-secret" "pw0",
    database_host := "localhost", database_port := "5432",
    subscription_plan := "BASIC", status := TenantStatus.ACTIVE,
    is_active := true }

/-- A soft-deleted record whose connection alias is still registered. -/
def ghostRecord : TenantRecord :=
  { acmeRecord with
    tenant_slug := "ghost"
    is_active := false
    status := TenantStatus.INACTIVE }

/-- An active but suspended record. -/
def suspRecord : TenantRecord :=
  { acmeRecord with
    tenant_slug := "susp-co"
    database_name := "susp-co_compliance_db"
    database_user := "susp-co_user"
    status := TenantStatus.SUSPENDED }

/-- An active record encrypted under a different secret (corrupt for this
service: its password cannot be decrypted). -/
def badRecord : TenantRecord :=
  { acmeRecord with
    tenant_slug := "bad-co"
    database_password := fernet_encrypt (DerivedKey.mk "other-secret") "pw1" }

end TenantMgmt

namespace TenantMgmt

/-- C5: the two remote-orchestration calls never raise to their caller:
`run_tenant_migrations_via_service1` returns true iff the remote responds
HTTP 200 and false on any other status or exception;
`copy_framework_templates_via_service1` returns the parsed JSON body on
HTTP 200 and the empty result object on any non-200 status or exception. -/
theorem C5_remote_calls :
    (∀ env slug cn, run_tenant_migrations_via_service1 env slug cn = true ↔
      env.migrate_response = Except.ok 200) ∧
    (∀ env slug fw r, env.templates_response = Except.ok (200, some r) →
      copy_framework_templates_via_service1 env slug fw = r) ∧
    (∀ env slug fw, (∀ r, env.templates_response ≠ Except.ok (200, some r)) →
      copy_framework_templates_via_service1 env slug fw = []) := by
  refine ⟨?_, ?_, ?_⟩
  · intro env slug cn
    unfold run_tenant_migrations_via_service1
    cases h : env.migrate_response with
    | ok code => simp
    | error e => simp
  · intro env slug fw r h
    unfold copy_framework_templates_via_service1
    rw [h]
    simp
  · intro env slug fw h
    unfold copy_framework_templates_via_service1
    cases hr : env.templates_response with
    | error e => rfl
    | ok p =>
      obtain ⟨code, body⟩ := p
      by_cases hc : code = 200
      · subst hc
        cases body with
        | none => simp
        | some r => exact absurd hr (h r)
      · simp [hc]

/-- C5 witness at a concrete environment. -/
theorem C5_remote_calls_witness :
    run_tenant_migrations_via_service1 okRemote "acme" "acme_compliance_db" = true ∧
    copy_framework_templates_via_service1 okRemote "acme" none =
      [("success", JVal.jbool true)] ∧
    copy_framework_templates_via_service1
      { migrate_response := Except.error "down",
        templates_response := Except.error "down" } "acme" none = [] :=
  ⟨(C5_remote_calls.1 okRemote "acme" "acme_compliance_db").mpr rfl,
   C5_remote_calls.2.1 okRemote "acme" none [("success", JVal.jbool true)] rfl,
   C5_remote_calls.2.2
     { migrate_response := Except.error "down", templates_response := Except.error "down" }
     "acme" none (fun r h => by simp at h)⟩

/-- C6: decrypting a password encrypted under the same service secret
recovers it exactly; decrypting under a different secret fails with a
decryption error rather than returning any string. -/
theorem C6_secret_codec :
    (∀ (secret p : String) (t : TenantRecord), decrypt_password secret
      { t with database_password := encrypt_password secret p } = Except.ok p) ∧
    (∀ (s1 s2 p : String) (t : TenantRecord), s1 ≠ s2 →
      decrypt_password s2 { t with database_password := encrypt_password s1 p } =
        Except.error "InvalidToken") := by
  constructor
  · intro secret p t
    simp [decrypt_password, encrypt_password, fernet_decrypt, fernet_encrypt]
  · intro s1 s2 p t h
    simp only [decrypt_password, encrypt_password, fernet_decrypt, fernet_encrypt,
      derive_fernet_key]
    rw [if_neg]
    intro hc
    exact h (congrArg DerivedKey.secret_material hc)

/-- C6 witness at concrete secrets. -/
theorem C6_secret_codec_witness :
    decrypt_password "k1" { acmeRecord with database_password := encrypt_password "k1" "pw" } =
      Except.ok "pw" ∧
    decrypt_password "k2" { acmeRecord with database_password := encrypt_password "k1" "pw" } =
      Except.error "InvalidToken" :=
  ⟨C6_secret_codec.1 "k1" "pw" acmeRecord,
   C6_secret_codec.2 "k1" "k2" "pw" acmeRecord (by decide)⟩

/-- C8: `generate_database_credentials` returns `slug ++ "_compliance_db"`
and `slug ++ "_user"` deterministically (independently of the random
stream), and a 16-character password drawn from the fixed alphabet of
letters, digits and the punctuation set. -/
theorem C8_credentials :
    ∀ slug rand1 rand2,
      (generate_database_credentials slug rand1).fst = slug ++ "_compliance_db" ∧
      (generate_database_credentials slug rand1).snd.fst = slug ++ "_user" ∧
      (generate_database_credentials slug rand1).fst =
        (generate_database_credentials slug rand2).fst ∧
      (generate_database_credentials slug rand1).snd.fst =
        (generate_database_credentials slug rand2).snd.fst ∧
      (generate_database_credentials slug rand1).snd.snd.length = 16 ∧
      ∀ c ∈ (generate_database_credentials slug rand1).snd.snd.data,
        c ∈ password_alphabet := by
  intro slug rand1 rand2
  refine ⟨rfl, rfl, rfl, rfl, rfl, ?_⟩
  intro c hc
  simp only [generate_database_credentials, List.mem_map] at hc
  obtain ⟨i, _, rfl⟩ := hc
  exact List.get_mem _ _ _

/-- C8 witness at a concrete slug and random stream. -/
theorem C8_credentials_witness :
    (generate_database_credentials "acme" zeroRand).fst = "acme_compliance_db" ∧
    (generate_database_credentials "acme" zeroRand).snd.fst = "acme_user" ∧
    (generate_database_credentials "acme" zeroRand).snd.snd.length = 16 ∧
    'a' ∈ password_alphabet := by
  have h := C8_credentials "acme" zeroRand zeroRand
  exact ⟨h.1, h.2.1, h.2.2.2.2.1, h.2.2.2.2.2 'a' (by decide)⟩

/-- C7: for every input string, `validate_and_normalize_slug` either
returns the stripped, lowercased slug — which then contains no underscore
or space, is not reserved, and matches the slug regex — or raises a
`ValidationError`; the input "Template1" is rejected because its
normalization "template1" is reserved; on a `ValidationError`, the
create-tenant view performs no directory or registry side effect. -/
theorem C7_slug_validation :
    (∀ raw s, validate_and_normalize_slug (some raw) = Except.ok s →
      s = pyLower (pyStrip raw) ∧
      s.data.contains '_' = false ∧ s.data.contains ' ' = false ∧
      RESERVED_TENANT_SLUGS.contains s = false ∧
      slug_regex_match s = true) ∧
    (validate_and_normalize_slug (some "Template1") =
      Except.error "tenant_slug is reserved; choose another") ∧
    (∀ st env db reg raw company plan fw e,
      validate_and_normalize_slug raw = Except.error e →
      (create_tenant st env db reg raw company plan fw).db = db ∧
      (create_tenant st env db reg raw company plan fw).registry = reg ∧
      (create_tenant st env db reg raw company plan fw).effects = []) := by
  refine ⟨?_, rfl, ?_⟩
  · intro raw s h
    simp only [validate_and_normalize_slug] at h
    by_cases h2 : ((pyLower (pyStrip raw)).data.contains '_' ||
        (pyLower (pyStrip raw)).data.contains ' ') = true
    · rw [if_pos h2] at h
      exact absurd h (by simp)
    · rw [if_neg h2] at h
      by_cases h3 : RESERVED_TENANT_SLUGS.contains (pyLower (pyStrip raw)) = true
      · rw [if_pos h3] at h
        exact absurd h (by simp)
      · rw [if_neg h3] at h
        by_cases h4 : (!slug_regex_match (pyLower (pyStrip raw))) = true
        · rw [if_pos h4] at h
          exact absurd h (by simp)
        · rw [if_neg h4] at h
          injection h with h
          subst h
          simp only [Bool.or_eq_true, not_or, Bool.not_eq_true] at h2
          simp only [Bool.not_eq_true] at h3
          simp only [Bool.not_eq_true', Bool.not_eq_false] at h4
          exact ⟨rfl, h2.1, h2.2, h3, h4⟩
  · intro st env db reg raw company plan fw e h
    unfold create_tenant
    rw [h]
    exact ⟨rfl, rfl, rfl⟩

/-- C7 witness: a valid slug with surrounding blanks and capitals, and a
missing slug leaving the state untouched. -/
theorem C7_slug_validation_witness :
    ("acme-1" = pyLower (pyStrip " Acme-1 ") ∧
      ("acme-1" : String).data.contains '_' = false ∧
      ("acme-1" : String).data.contains ' ' = false ∧
      RESERVED_TENANT_SLUGS.contains "acme-1" = false ∧
      slug_regex_match "acme-1" = true) ∧
    (create_tenant sampleSettings okEnv [] [] none (some "Acme Inc") "BASIC" none).db = [] ∧
    (create_tenant sampleSettings okEnv [] [] none (some "Acme Inc") "BASIC" none).effects = [] :=
  ⟨C7_slug_validation.1 " Acme-1 " "acme-1" rfl,
   (C7_slug_validation.2.2 sampleSettings okEnv [] [] none (some "Acme Inc") "BASIC" none
     "tenant_slug is required" rfl).1,
   (C7_slug_validation.2.2 sampleSettings okEnv [] [] none (some "Acme Inc") "BASIC" none
     "tenant_slug is required" rfl).2.2⟩

/-- Helper: a record whose ciphertext decrypts under the service secret is
wired into the registry without error, under its own connection name. -/
theorem add_tenant_ok_of_can_decrypt (st : Settings) (reg : Registry) (t : TenantRecord)
    (h : can_decrypt st.secret_key t = true) :
    add_tenant_database_to_django st reg t =
      Except.ok
        (registry_insert reg (t.tenant_slug ++ "_compliance_db")
          { st.default_db with
            name := t.database_name
            user := t.database_user
            password := t.database_password.plaintext
            host := t.database_host
            port := t.database_port },
         t.tenant_slug ++ "_compliance_db") := by
  have hk : t.database_password.key = derive_fernet_key st.secret_key := by
    exact eq_of_beq h
  simp [add_tenant_database_to_django, decrypt_password, fernet_decrypt, hk]

/-- Helper: after appending a fresh row for a slug and then updating it,
lookup by that slug finds exactly the updated row. -/
theorem find_tenant_fresh_update (db : List TenantRecord) (t t2 : TenantRecord) (slug : String)
    (hdb : db.any (fun r => r.tenant_slug == slug) = false)
    (ht : t.tenant_slug = slug) (ht2 : t2.tenant_slug = slug) :
    find_tenant (save_update (db ++ [t]) t2) slug = some t2 := by
  induction db with
  | nil =>
    simp [find_tenant, save_update, ht, ht2]
  | cons r rs ih =>
    simp only [List.any_cons, Bool.or_eq_false_iff] at hdb
    obtain ⟨h1, h2⟩ := hdb
    have hr : (r.tenant_slug == t2.tenant_slug) = false := by
      rw [ht2]
      exact h1
    have ih2 := ih h2
    simp only [find_tenant, save_update] at ih2 ⊢
    simp only [List.cons_append, List.map_cons, hr]
    simp only [Bool.false_eq_true, if_false, List.find?_cons, h1]
    exact ih2

/-- C1: on every fresh provisioning run that returns without raising, the
final status is ACTIVE iff the postgres, alias, migrations and templates
ledger entries all have ok true, it is PROVISIONING_FAILED otherwise, and
the final_status ledger entry equals the final status. -/
theorem C1_final_status (st : Settings) (env : ProvisionEnv)
    (db : List TenantRecord) (reg : Registry)
    (slug company plan : String) (fw : Option (List Nat)) (res : RegisterResult)
    (hfresh : db.any (fun r => r.tenant_slug == slug) = false)
    (hok : (register_tenant_database st env db reg slug company plan fw).result =
      Except.ok res) :
    (((register_tenant_database st env db reg slug company plan fw).steps.postgres_provision =
        some { ok := true } ∧
      (register_tenant_database st env db reg slug company plan fw).steps.django_alias =
        some { ok := true } ∧
      (register_tenant_database st env db reg slug company plan fw).steps.migrations =
        some { ok := true } ∧
      (register_tenant_database st env db reg slug company plan fw).steps.templates =
        some { ok := true }) ↔
      res.tenant_info.status = TenantStatus.ACTIVE) ∧
    (res.tenant_info.status = TenantStatus.ACTIVE ∨
      res.tenant_info.status = TenantStatus.PROVISIONING_FAILED) ∧
    (register_tenant_database st env db reg slug company plan fw).steps.final_status =
      some res.tenant_info.status := by
  cases henv : env.pg_provision with
  | error e =>
    simp [register_tenant_database, hfresh, henv] at hok
  | ok u =>
    cases hb1 : run_tenant_migrations_via_service1 env.remote slug (slug ++ "_compliance_db") <;>
      cases hb2 : template_call_ok (copy_framework_templates_via_service1 env.remote slug fw) <;>
      simp [register_tenant_database, hfresh, henv, add_tenant_database_to_django,
        decrypt_password, encrypt_password, fernet_decrypt, fernet_encrypt,
        ledger_all_ok, hb1, hb2] at hok ⊢ <;>
      rw [← hok] <;>
      simp

/-- C1 witness at a concrete run whose remote calls both succeed. -/
theorem C1_final_status_witness :
    (register_tenant_database sampleSettings okEnv [] [] "acme" "Acme Inc" "BASIC"
      none).steps.final_status = some TenantStatus.ACTIVE := by
  have h := C1_final_status sampleSettings okEnv [] [] "acme" "Acme Inc" "BASIC" none
    { tenant_info :=
        { tenant_slug := "acme", company_name := "Acme Inc",
          database_name := "acme_compliance_db", database_user := "acme_user",
          database_password :=
            { key := { secret_material := "service-secret" },
              plaintext := "aaaaaaaaaaaaaaaa" },
          database_host := "localhost", database_port := "5432",
          subscription_plan := "BASIC", status := TenantStatus.ACTIVE,
          is_active := true }
      connection_name := "acme_compliance_db"
      migration_success := true
      template_success := [("success", JVal.jbool true)]
      steps :=
        { generate_credentials := some { ok := true }
          directory_row := some { ok := true }
          postgres_provision := some { ok := true }
          django_alias := some { ok := true }
          migrations := some { ok := true }
          templates := some { ok := true }
          final_status := some TenantStatus.ACTIVE
          error := none } }
    rfl rfl
  exact h.2.2

/-- C2 counterexample: a duplicate-slug insert raises during directory-row
creation (step 2), but nothing marks any row `PROVISIONING_FAILED` and no
error is recorded in the ledger — the exception happens before the try
block, so the claim fails for steps 1-2. -/
theorem C2_counterexample :
    (register_tenant_database sampleSettings okEnv [acmeRecord] [] "acme" "Acme Inc"
      "BASIC" none).result = Except.error "IntegrityError: duplicate tenant_slug" ∧
    (register_tenant_database sampleSettings okEnv [acmeRecord] [] "acme" "Acme Inc"
      "BASIC" none).steps.error = none ∧
    (register_tenant_database sampleSettings okEnv [acmeRecord] [] "acme" "Acme Inc"
      "BASIC" none).steps.final_status = none ∧
    (register_tenant_database sampleSettings okEnv [acmeRecord] [] "acme" "Acme Inc"
      "BASIC" none).db = [acmeRecord] ∧
    acmeRecord.status = TenantStatus.ACTIVE :=
  ⟨rfl, rfl, rfl, rfl, rfl⟩

/-- C2 (amended): an error raised inside the try block — database
provisioning onwards — marks the directory row `PROVISIONING_FAILED`,
records the error in the ledger together with a failed final status, and
re-raises to the caller; errors in steps 1-2 propagate without any such
recording. -/
theorem C2_amended_try_block (st : Settings) (env : ProvisionEnv)
    (db : List TenantRecord) (reg : Registry)
    (slug company plan : String) (fw : Option (List Nat)) (e : String)
    (hfresh : db.any (fun r => r.tenant_slug == slug) = false)
    (herr : (register_tenant_database st env db reg slug company plan fw).result =
      Except.error e) :
    (register_tenant_database st env db reg slug company plan fw).steps.error = some e ∧
    (register_tenant_database st env db reg slug company plan fw).steps.final_status =
      some TenantStatus.PROVISIONING_FAILED ∧
    ∃ t, find_tenant (register_tenant_database st env db reg slug company plan fw).db
      slug = some t ∧ t.status = TenantStatus.PROVISIONING_FAILED := by
  cases henv : env.pg_provision with
  | ok u =>
    simp [register_tenant_database, hfresh, henv, add_tenant_database_to_django,
      decrypt_password, encrypt_password, fernet_decrypt, fernet_encrypt] at herr
  | error e0 =>
    have he : e0 = e := by
      simp [register_tenant_database, hfresh, henv] at herr
      exact herr
    subst he
    refine ⟨?_, ?_, ?_⟩
    · simp [register_tenant_database, hfresh, henv]
    · simp [register_tenant_database, hfresh, henv]
    · simp only [register_tenant_database, hfresh, henv, Bool.false_eq_true, if_false]
      exact ⟨_, find_tenant_fresh_update db _ _ slug hfresh rfl rfl, rfl⟩

/-- C2 witness: a concrete run whose postgres provisioning raises. -/
theorem C2_amended_try_block_witness :
    (register_tenant_database sampleSettings pgFailEnv [] [] "acme" "Acme Inc" "BASIC"
      none).steps.error = some "connection refused" ∧
    (register_tenant_database sampleSettings pgFailEnv [] [] "acme" "Acme Inc" "BASIC"
      none).steps.final_status = some TenantStatus.PROVISIONING_FAILED :=
  ⟨(C2_amended_try_block sampleSettings pgFailEnv [] [] "acme" "Acme Inc" "BASIC" none
      "connection refused" rfl rfl).1,
   (C2_amended_try_block sampleSettings pgFailEnv [] [] "acme" "Acme Inc" "BASIC" none
      "connection refused" rfl rfl).2.1⟩

/-- C3: invoking create-tenant for a slug that already has a directory
record (active or not) takes the reuse path: the directory is unchanged
(no second record, slug multiplicity preserved), no credential generation
and no database provisioning is attempted — only registry wiring,
migrations and templates — and the returned ledger flags
`directory_row.reused` and `postgres_provision.skipped`. -/
theorem C3_reuse_path (st : Settings) (env : ProvisionEnv)
    (db : List TenantRecord) (reg : Registry)
    (raw : Option String) (slug company plan : String) (fw : Option (List Nat))
    (existing : TenantRecord)
    (hv : validate_and_normalize_slug raw = Except.ok slug)
    (hex : find_tenant db slug = some existing)
    (hdec : can_decrypt st.secret_key existing = true)
    (hco : ¬ company = "") :
    (create_tenant st env db reg raw (some company) plan fw).db = db ∧
    (create_tenant st env db reg raw (some company) plan fw).effects =
      [Effect.wire_alias, Effect.call_migrations, Effect.call_templates] ∧
    Effect.gen_credentials ∉ (create_tenant st env db reg raw (some company) plan fw).effects ∧
    Effect.pg_provision ∉ (create_tenant st env db reg raw (some company) plan fw).effects ∧
    (∃ p, (create_tenant st env db reg raw (some company) plan fw).response.provisioning =
        some p ∧
      p.steps.directory_row = some { ok := true, reused := true } ∧
      p.steps.postgres_provision = some { ok := true, skipped := true }) ∧
    ((create_tenant st env db reg raw (some company) plan fw).db.filter
        (fun r => r.tenant_slug == slug)).length =
      (db.filter (fun r => r.tenant_slug == slug)).length := by
  have hadd := add_tenant_ok_of_can_decrypt st reg existing hdec
  refine ⟨?_, ?_, ?_, ?_, ?_, ?_⟩
  · simp [create_tenant, hv, hex, hadd, if_neg hco]
  · simp [create_tenant, hv, hex, hadd, if_neg hco]
  · simp only [create_tenant, hv, hex, hadd, if_neg hco]
    decide
  · simp only [create_tenant, hv, hex, hadd, if_neg hco]
    decide
  · simp only [create_tenant, hv, hex, hadd, if_neg hco]
    exact ⟨_, rfl, rfl, rfl⟩
  · simp [create_tenant, hv, hex, hadd, if_neg hco]

/-- C3 witness: a second create-tenant call for an existing slug. -/
theorem C3_reuse_path_witness :
    (create_tenant sampleSettings okEnv [acmeRecord] [] (some "acme") (some "Acme Inc")
      "BASIC" none).db = [acmeRecord] ∧
    (create_tenant sampleSettings okEnv [acmeRecord] [] (some "acme") (some "Acme Inc")
      "BASIC" none).effects =
      [Effect.wire_alias, Effect.call_migrations, Effect.call_templates] :=
  ⟨(C3_reuse_path sampleSettings okEnv [acmeRecord] [] (some "acme") "acme" "Acme Inc"
      "BASIC" none acmeRecord rfl rfl rfl (by decide)).1,
   (C3_reuse_path sampleSettings okEnv [acmeRecord] [] (some "acme") "acme" "Acme Inc"
      "BASIC" none acmeRecord rfl rfl rfl (by decide)).2.1⟩

/-- C4 counterexample: when a fatal provisioning step raises, the response
carries only the error string — no step ledger and no tenant record — so
the ledger is not returned on every code path. -/
theorem C4_counterexample :
    (create_tenant sampleSettings pgFailEnv [] [] (some "acme") (some "Acme Inc")
      "BASIC" none).response.success = false ∧
    (create_tenant sampleSettings pgFailEnv [] [] (some "acme") (some "Acme Inc")
      "BASIC" none).response.provisioning = none ∧
    (create_tenant sampleSettings pgFailEnv [] [] (some "acme") (some "Acme Inc")
      "BASIC" none).response.tenant = none ∧
    (create_tenant sampleSettings pgFailEnv [] [] (some "acme") (some "Acme Inc")
      "BASIC" none).response.error =
      some "Failed to create tenant: connection refused" :=
  ⟨rfl, rfl, rfl, rfl⟩

/-- C4 (amended): every response the view answers with `success == true`
(the reuse path and every fresh run in which `register_tenant_database`
returns instead of raising, including degraded `PROVISIONING_FAILED`
outcomes) carries the full step ledger alongside the tenant record; when a
fatal step raises, the response carries only the error string. -/
theorem C4_amended (st : Settings) (env : ProvisionEnv)
    (db : List TenantRecord) (reg : Registry)
    (raw company : Option String) (plan : String) (fw : Option (List Nat))
    (h : (create_tenant st env db reg raw company plan fw).response.success = true) :
    (create_tenant st env db reg raw company plan fw).response.provisioning.isSome =
      true ∧
    (create_tenant st env db reg raw company plan fw).response.tenant.isSome = true := by
  unfold create_tenant at h ⊢
  cases hv : validate_and_normalize_slug raw with
  | error e =>
    rw [hv] at h
    simp at h
  | ok slug =>
    rw [hv] at h
    cases company with
    | none => simp at h
    | some c =>
      by_cases hc : c = ""
      · simp [hc] at h
      · simp only [if_neg hc] at h ⊢
        cases hex : find_tenant db slug with
        | some existing =>
          rw [hex] at h
          cases hadd : add_tenant_database_to_django st reg existing with
          | error e => simp [hadd] at h
          | ok rc => simp [hadd]
        | none =>
          rw [hex] at h
          cases hres : (register_tenant_database st env db reg slug c plan fw).result with
          | ok r => exact ⟨rfl, rfl⟩
          | error e => simp [hres] at h

/-- C4 witness: a fully successful fresh run answers with the ledger. -/
theorem C4_amended_witness :
    (create_tenant sampleSettings okEnv [] [] (some "acme") (some "Acme Inc") "BASIC"
      none).response.provisioning.isSome = true ∧
    (create_tenant sampleSettings okEnv [] [] (some "acme") (some "Acme Inc") "BASIC"
      none).response.tenant.isSome = true :=
  C4_amended sampleSettings okEnv [] [] (some "acme") (some "Acme Inc") "BASIC" none rfl

/-- Helper: the freshly inserted key is present after a registry insert. -/
theorem registry_has_insert (reg : Registry) (k : String) (cfg : DbConfig) :
    registry_has (registry_insert reg k cfg) k = true := by
  simp [registry_has, registry_insert]

/-- Helper: a registry insert never removes an existing key. -/
theorem registry_has_insert_mono (reg : Registry) (k k0 : String) (cfg : DbConfig)
    (h : registry_has reg k0 = true) :
    registry_has (registry_insert reg k cfg) k0 = true := by
  simp only [registry_has, registry_insert, List.any_cons, List.any_eq_true,
    Bool.or_eq_true] at h ⊢
  by_cases hk : (k == k0) = true
  · exact Or.inl hk
  · right
    obtain ⟨p, hp, hpk⟩ := h
    refine ⟨p, List.mem_filter.mpr ⟨hp, ?_⟩, hpk⟩
    have hpf : p.1 = k0 := eq_of_beq hpk
    rw [hpf]
    simp only [bne_iff_ne, ne_eq]
    intro he
    exact hk (by rw [he, beq_self_eq_true])

/-- Helper: a successful alias wiring always returns the tenant's own
connection name, and its output registry is an insert into the input. -/
theorem add_tenant_registry_shape (st : Settings) (reg : Registry) (t : TenantRecord)
    (rc : Registry × String)
    (h : add_tenant_database_to_django st reg t = Except.ok rc) :
    ∃ cfg, rc = (registry_insert reg (t.tenant_slug ++ "_compliance_db") cfg,
      t.tenant_slug ++ "_compliance_db") := by
  unfold add_tenant_database_to_django at h
  cases hd : decrypt_password st.secret_key t with
  | error e =>
    rw [hd] at h
    cases h
  | ok pw =>
    rw [hd] at h
    injection h with h
    exact ⟨_, h.symm⟩

/-- Helper: the invariant of the bulk-load fold — monotone loaded and
skipped lists, key preservation, and per-record outcome. -/
theorem load_fold_spec (st : Settings) (l : List TenantRecord) :
    ∀ acc : LoadOutcome,
      (∀ s, s ∈ acc.loaded → s ∈ (l.foldl (load_step st) acc).loaded) ∧
      (∀ s, s ∈ acc.skipped_failures →
        s ∈ (l.foldl (load_step st) acc).skipped_failures) ∧
      (∀ k, registry_has acc.registry k = true →
        registry_has (l.foldl (load_step st) acc).registry k = true) ∧
      (∀ t ∈ l,
        (t.tenant_slug ∈ (l.foldl (load_step st) acc).loaded ∨
         t.tenant_slug ∈ (l.foldl (load_step st) acc).skipped_failures) ∧
        (can_decrypt st.secret_key t = true →
          registry_has (l.foldl (load_step st) acc).registry
            (t.tenant_slug ++ "_compliance_db") = true)) := by
  induction l with
  | nil =>
    intro acc
    refine ⟨fun s hs => hs, fun s hs => hs, fun k hk => hk, ?_⟩
    intro t ht
    cases ht
  | cons r rs ih =>
    intro acc
    obtain ⟨ihl, ihs, ihr, ihm⟩ := ih (load_step st acc r)
    have hstep_loaded : ∀ s, s ∈ acc.loaded → s ∈ (load_step st acc r).loaded := by
      intro s hs
      unfold load_step
      cases hadd : add_tenant_database_to_django st acc.registry r with
      | ok rc => simp [hs]
      | error e => exact hs
    have hstep_skipped : ∀ s, s ∈ acc.skipped_failures →
        s ∈ (load_step st acc r).skipped_failures := by
      intro s hs
      unfold load_step
      cases hadd : add_tenant_database_to_django st acc.registry r with
      | ok rc => exact hs
      | error e => simp [hs]
    have hstep_reg : ∀ k, registry_has acc.registry k = true →
        registry_has (load_step st acc r).registry k = true := by
      intro k hk
      unfold load_step
      cases hadd : add_tenant_database_to_django st acc.registry r with
      | error e => exact hk
      | ok rc =>
        obtain ⟨cfg, rfl⟩ := add_tenant_registry_shape st acc.registry r rc hadd
        exact registry_has_insert_mono _ _ _ _ hk
    have hr_main :
        (r.tenant_slug ∈ ((r :: rs).foldl (load_step st) acc).loaded ∨
         r.tenant_slug ∈ ((r :: rs).foldl (load_step st) acc).skipped_failures) ∧
        (can_decrypt st.secret_key r = true →
          registry_has ((r :: rs).foldl (load_step st) acc).registry
            (r.tenant_slug ++ "_compliance_db") = true) := by
      rw [List.foldl_cons]
      constructor
      · cases hadd : add_tenant_database_to_django st acc.registry r with
        | ok rc =>
          left
          apply ihl
          simp [load_step, hadd]
        | error e =>
          right
          apply ihs
          simp [load_step, hadd]
      · intro hdec
        have hadd := add_tenant_ok_of_can_decrypt st acc.registry r hdec
        apply ihr
        simp [load_step, hadd, registry_has_insert]
    refine ⟨?_, ?_, ?_, ?_⟩
    · intro s hs
      rw [List.foldl_cons]
      exact ihl s (hstep_loaded s hs)
    · intro s hs
      rw [List.foldl_cons]
      exact ihs s (hstep_skipped s hs)
    · intro k hk
      rw [List.foldl_cons]
      exact ihr k (hstep_reg k hk)
    · intro t ht
      rcases List.mem_cons.mp ht with rfl | hmem
      · exact hr_main
      · rw [List.foldl_cons]
        exact ihm t hmem

/-- C9: the startup bulk load never raises; it attempts every active
record (each active slug ends in the loaded or the skipped list), and
every active record whose registration does not fail ends up registered in
the connection registry, failures being skipped without aborting. -/
theorem C9_bulk_load (st : Settings) (db : List TenantRecord) (reg : Registry) :
    ∀ t ∈ db, t.is_active = true →
      ((t.tenant_slug ∈ (load_all_tenant_databases st db reg).loaded ∨
        t.tenant_slug ∈ (load_all_tenant_databases st db reg).skipped_failures) ∧
       (can_decrypt st.secret_key t = true →
        registry_has (load_all_tenant_databases st db reg).registry
          (t.tenant_slug ++ "_compliance_db") = true)) := by
  intro t ht hact
  have hmem : t ∈ db.filter (fun t => t.is_active) :=
    List.mem_filter.mpr ⟨ht, hact⟩
  exact (load_fold_spec st (db.filter (fun t => t.is_active))
    { registry := reg, loaded := [], skipped_failures := [] }).2.2.2 t hmem

/-- C9 witness: one healthy and one corrupt record among the active ones;
the healthy one is registered, the corrupt one is attempted and ends in a
list. -/
theorem C9_bulk_load_witness :
    registry_has (load_all_tenant_databases sampleSettings [acmeRecord, badRecord]
      []).registry "acme_compliance_db" = true ∧
    ("bad-co" ∈ (load_all_tenant_databases sampleSettings [acmeRecord, badRecord]
        []).loaded ∨
     "bad-co" ∈ (load_all_tenant_databases sampleSettings [acmeRecord, badRecord]
        []).skipped_failures) :=
  ⟨(C9_bulk_load sampleSettings [acmeRecord, badRecord] [] acmeRecord
      (List.mem_cons_self _ _) rfl).2 rfl,
   (C9_bulk_load sampleSettings [acmeRecord, badRecord] [] badRecord
      (List.mem_cons.mpr (Or.inr (List.mem_cons_self _ _))) rfl).1⟩

/-- C10 counterexample: a soft-deleted tenant whose connection alias is
still registered — `register_tenant_database_alias_on_demand` returns the
cached name without raising, so on-demand registration does not gate on
`is_active` when the alias is already present. -/
theorem C10_counterexample :
    ghostRecord.is_active = false ∧
    register_tenant_database_alias_on_demand sampleSettings [ghostRecord]
      [("ghost_compliance_db", sampleCfg)] "ghost" =
      Except.ok ([("ghost_compliance_db", sampleCfg)], "ghost_compliance_db") :=
  ⟨rfl, rfl⟩

/-- C10 (amended): credential lookup gates only on `is_active`, never on
status: any active record yields the decrypted bundle whatever its status,
and lookup of a slug with no active record yields no result; on-demand
registration likewise gates only on `is_active` provided the connection
name is not already in the registry — when it is, the cached name is
returned without consulting the directory. -/
theorem C10_amended (st : Settings) (db : List TenantRecord) (reg : Registry)
    (slug : String) :
    (∀ t, db.find? (fun r => r.tenant_slug == slug && r.is_active) = some t →
      can_decrypt st.secret_key t = true →
      get_tenant_database_credentials st db slug = Except.ok (some
        { database_name := t.database_name
          database_user := t.database_user
          database_password := t.database_password.plaintext
          database_host := t.database_host
          database_port := t.database_port
          connection_name := slug ++ "_compliance_db" }) ∧
      (registry_has reg (slug ++ "_compliance_db") = false →
        register_tenant_database_alias_on_demand st db reg slug =
          Except.ok (registry_insert reg (slug ++ "_compliance_db")
            { st.default_db with
              name := t.database_name
              user := t.database_user
              password := t.database_password.plaintext
              host := t.database_host
              port := t.database_port },
            slug ++ "_compliance_db"))) ∧
    (db.find? (fun r => r.tenant_slug == slug && r.is_active) = none →
      get_tenant_database_credentials st db slug = Except.ok none ∧
      (registry_has reg (slug ++ "_compliance_db") = false →
        register_tenant_database_alias_on_demand st db reg slug =
          Except.error ("Tenant " ++ slug ++ " not found"))) := by
  constructor
  · intro t hf hdec
    have hk : t.database_password.key = derive_fernet_key st.secret_key :=
      eq_of_beq hdec
    have hget : get_tenant_database_credentials st db slug = Except.ok (some
        { database_name := t.database_name
          database_user := t.database_user
          database_password := t.database_password.plaintext
          database_host := t.database_host
          database_port := t.database_port
          connection_name := slug ++ "_compliance_db" }) := by
      simp [get_tenant_database_credentials, hf, decrypt_password, fernet_decrypt, hk]
    refine ⟨hget, ?_⟩
    intro hreg
    simp [register_tenant_database_alias_on_demand, hreg, hget]
  · intro hf
    have hget : get_tenant_database_credentials st db slug = Except.ok none := by
      simp [get_tenant_database_credentials, hf]
    refine ⟨hget, ?_⟩
    intro hreg
    simp [register_tenant_database_alias_on_demand, hreg, hget]

/-- C10 witness: a suspended but active record yields its bundle; a
soft-deleted record yields no result, and on-demand registration for it
raises when its alias is not cached. -/
theorem C10_amended_witness :
    get_tenant_database_credentials sampleSettings [suspRecord] "susp-co" =
      Except.ok (some
        { database_name := "susp-co_compliance_db"
          database_user := "susp-co_user"
          database_password := "pw0"
          database_host := "localhost"
          database_port := "5432"
          connection_name := "susp-co_compliance_db" }) ∧
    get_tenant_database_credentials sampleSettings [ghostRecord] "ghost" =
      Except.ok none ∧
    register_tenant_database_alias_on_demand sampleSettings [ghostRecord] [] "ghost" =
      Except.error "Tenant ghost not found" :=
  ⟨((C10_amended sampleSettings [suspRecord] [] "susp-co").1 suspRecord rfl rfl).1,
   ((C10_amended sampleSettings [ghostRecord] [] "ghost").2 rfl).1,
   ((C10_amended sampleSettings [ghostRecord] [] "ghost").2 rfl).2 rfl⟩

end TenantMgmt
